import Mathlib

/-!
Verification development for the simple-app serverless backend.

The repository provisions two DynamoDB tables (Movies, MovieCast) and
request handlers.  `src/lambdas/getMovieById.ts` is the Movie Lookup
handler: it performs an unconditional `ScanCommand` on the table named
`Movies` and serializes the result.  The CDK stack (`src/unnamed/part_000`,
class `SimpleAppStack`) wires the handlers and supplies environment
variables.

The embedding below models JSON values, the JSON.stringify serialization,
HTTP-style responses, and the handlers as pure functions over an explicit
store parameter.  A handler returns, besides its response, the trace of
store calls it issued, so that claims about which tables are accessed
(and how often) are statable.
-/

namespace SimpleApp

/-- JSON values, as produced and consumed by the handlers. -/
inductive JsonVal where
  | null : JsonVal
  | bool : Bool → JsonVal
  | num : Int → JsonVal
  | str : String → JsonVal
  | arr : List JsonVal → JsonVal
  | obj : List (String × JsonVal) → JsonVal

/-- Escape a string for JSON output (backslash and double quote). -/
def jsonEscape (s : String) : String :=
  String.join (s.toList.map fun c =>
    if c = '\\' then "\\\\"
    else if c = '"' then "\\\""
    else String.singleton c)

mutual

/-- Serialize a JSON value, in the style of JSON.stringify. -/
def JsonVal.render : JsonVal → String
  | JsonVal.null => "null"
  | JsonVal.bool true => "true"
  | JsonVal.bool false => "false"
  | JsonVal.num n => toString n
  | JsonVal.str s => "\"" ++ jsonEscape s ++ "\""
  | JsonVal.arr xs => "[" ++ JsonVal.renderArr xs ++ "]"
  | JsonVal.obj fs => "\x7b" ++ JsonVal.renderObj fs ++ "\x7d"

/-- Serialize the elements of a JSON array, comma separated. -/
def JsonVal.renderArr : List JsonVal → String
  | [] => ""
  | [x] => JsonVal.render x
  | x :: y :: rest => JsonVal.render x ++ "," ++ JsonVal.renderArr (y :: rest)

/-- Serialize the fields of a JSON object, comma separated. -/
def JsonVal.renderObj : List (String × JsonVal) → String
  | [] => ""
  | [(k, v)] => "\"" ++ jsonEscape k ++ "\":" ++ JsonVal.render v
  | (k, v) :: y :: rest =>
      "\"" ++ jsonEscape k ++ "\":" ++ JsonVal.render v ++ "," ++
        JsonVal.renderObj (y :: rest)

end

/-- An HTTP-style handler response: status code, headers, serialized body. -/
structure Response where
  statusCode : Nat
  headers : List (String × String)
  body : String
deriving DecidableEq

/-- The headers both handlers attach to every response. -/
def jsonHeaders : List (String × String) := [("content-type", "application/json")]

/-- Output of a DynamoDB ScanCommand as consumed by the Movie Lookup
handler: the list of items of the scanned table. -/
structure ScanCommandOutput where
  Items : List JsonVal

/-- The scan command built at lines 15-17 of `src/lambdas/getMovieById.ts`:
the table name is the hardcoded literal string. -/
structure ScanCommand where
  TableName : String
deriving DecidableEq

/-- The one command the Movie Lookup handler sends. -/
def movieScanCommand : ScanCommand := { TableName := "Movies" }

/-- The table name declared for the Movies table by `SimpleAppStack`
(src/unnamed/part_000, line 38). -/
def moviesTableName : String := "Movies"

/-- Environment supplied to the GetMovieByIdFn lambda by `SimpleAppStack`
(src/unnamed/part_000, lines 62-65): TABLE_NAME is the Movies table name. -/
def stackGetMovieByIdEnv : List (String × String) :=
  [("TABLE_NAME", moviesTableName), ("REGION", "eu-west-1")]

/-- The Movie Lookup handler, `handler` in `src/lambdas/getMovieById.ts`.
The ambient process environment and the DynamoDB document client are
passed explicitly: `store` maps a scanned table name to either the scan
output or a thrown error value.  The result pairs the response with the
trace of table names scanned, in order. -/
def GetMovieById.handler (env : String → Option String)
    (store : String → Except JsonVal ScanCommandOutput)
    (event context : JsonVal) : Response × List String :=
  match store movieScanCommand.TableName with
  | Except.ok commandOutput =>
      ({ statusCode := 200
         headers := jsonHeaders
         body := (JsonVal.obj [("data", JsonVal.arr commandOutput.Items)]).render },
       [movieScanCommand.TableName])
  | Except.error e =>
      ({ statusCode := 500
         headers := jsonHeaders
         body := (JsonVal.obj [("error", e)]).render },
       [movieScanCommand.TableName])

/-- A record (DynamoDB item) as a list of named JSON attributes. -/
abbrev Row := List (String × JsonVal)

/-- Read a run of decimal digits into an accumulator; any non-digit
character makes the whole parse fail. -/
def digitsToNat? : List Char → Nat → Option Nat
  | [], acc => some acc
  | c :: cs, acc =>
    if c.isDigit then digitsToNat? cs (acc * 10 + (c.toNat - 48)) else none

/-- Modelled from the spec: the movieId validation of the Cast Lookup
handler requires the raw parameter to parse as an integer (spec section
4.2).  An optional leading minus sign followed by one or more decimal
digits parses; anything else is non-numeric. -/
def parseIntParam (s : String) : Option Int :=
  match s.toList with
  | [] => none
  | '-' :: [] => none
  | '-' :: c :: cs => (digitsToNat? (c :: cs) 0).map fun n => -(n : Int)
  | c :: cs => (digitsToNat? (c :: cs) 0).map fun n => (n : Int)

/-- Modelled from the spec: the request parameters of the Cast Lookup
handler (`src/lambdas/getMovieCastMembers.ts` is referenced by the stack
but missing from the repository snapshot).  Per spec section 4.2, the
inputs come from path or query parameters: a required `movieId` (a raw
string that must parse as an integer), optional `actorName` and
`roleName` filters, and an optional include-movie-metadata flag. -/
structure CastEvent where
  movieId : Option String
  actorName : Option String
  roleName : Option String
  includeMovieMetadata : Bool

/-- Modelled from the spec: the store interface the Cast Lookup handler
consumes (spec section 6): a query of the MovieCast collection by
partition key with optional sort-key or secondary-index restriction, and
a point lookup of a Movie by id which may find no record. -/
structure CastStore where
  queryCast : Int → Option String → Option String → Except JsonVal (List Row)
  getMovie : Int → Except JsonVal (Option Row)

/-- One store access issued by the Cast Lookup handler, for the trace. -/
inductive CastStoreCall where
  | castQuery : Int → Option String → Option String → CastStoreCall
  | movieGet : Int → CastStoreCall
deriving DecidableEq

/-- Body of a successful Cast Lookup response carrying the given rows. -/
def okDataBody (rows : List Row) : String :=
  (JsonVal.obj [("data", JsonVal.arr (rows.map JsonVal.obj))]).render

/-- The validation-error response for a missing or non-numeric movieId
(spec section 4.2: status 400, body describing the invalid parameter). -/
def invalidMovieIdResponse : Response :=
  { statusCode := 400
    headers := jsonHeaders
    body := (JsonVal.obj
      [("error", JsonVal.str "Invalid or missing movieId")]).render }

/-- Merge policy for enrichment, chosen per spec section 4.2 step 3:
nest the parent movie record under a `movie` field of the cast row, the
same merge applied to every row. -/
def enrichRow (movie : Row) (r : Row) : Row :=
  r ++ [("movie", JsonVal.obj movie)]

/-- Modelled from the spec: the Cast Lookup handler
(`src/lambdas/getMovieCastMembers.ts`, absent from the snapshot),
following the retrieval algorithm of spec section 4.2:
validate `movieId` (400 before any store access when missing or
non-numeric); query the cast rows for the movie with the optional
filters; zero rows yield 200 with an empty list; when the metadata flag
is set, point-look-up the Movie and merge it into every row when found,
proceeding un-enriched when absent; any store error yields 500 with the
error echoed.  The result pairs the response with the trace of store
calls issued, in order. -/
def getMovieCastMembers (store : CastStore) (ev : CastEvent) :
    Response × List CastStoreCall :=
  match ev.movieId with
  | none => (invalidMovieIdResponse, [])
  | some raw =>
    match parseIntParam raw with
    | none => (invalidMovieIdResponse, [])
    | some movieId =>
      match store.queryCast movieId ev.actorName ev.roleName with
      | Except.error e =>
          ({ statusCode := 500
             headers := jsonHeaders
             body := (JsonVal.obj [("error", e)]).render },
           [CastStoreCall.castQuery movieId ev.actorName ev.roleName])
      | Except.ok rows =>
        if rows.isEmpty then
          ({ statusCode := 200, headers := jsonHeaders, body := okDataBody [] },
           [CastStoreCall.castQuery movieId ev.actorName ev.roleName])
        else if ev.includeMovieMetadata then
          match store.getMovie movieId with
          | Except.error e =>
              ({ statusCode := 500
                 headers := jsonHeaders
                 body := (JsonVal.obj [("error", e)]).render },
               [CastStoreCall.castQuery movieId ev.actorName ev.roleName,
                CastStoreCall.movieGet movieId])
          | Except.ok none =>
              ({ statusCode := 200
                 headers := jsonHeaders
                 body := okDataBody rows },
               [CastStoreCall.castQuery movieId ev.actorName ev.roleName,
                CastStoreCall.movieGet movieId])
          | Except.ok (some movie) =>
              ({ statusCode := 200
                 headers := jsonHeaders
                 body := okDataBody (rows.map (enrichRow movie)) },
               [CastStoreCall.castQuery movieId ev.actorName ev.roleName,
                CastStoreCall.movieGet movieId])
        else
          ({ statusCode := 200, headers := jsonHeaders, body := okDataBody rows },
           [CastStoreCall.castQuery movieId ev.actorName ev.roleName])

/-- A sample batch of movie records, for witnesses. -/
def sampleItems : List JsonVal :=
  [JsonVal.obj [("id", JsonVal.num 1), ("title", JsonVal.str "A")]]

/-- A store whose scan of any table succeeds with the sample items. -/
def sampleScanStore : String → Except JsonVal ScanCommandOutput :=
  fun _ => Except.ok { Items := sampleItems }

/-- A store whose scan of any table succeeds with no items. -/
def emptyScanStore : String → Except JsonVal ScanCommandOutput :=
  fun _ => Except.ok { Items := [] }

/-- A store whose scan of any table throws an access-denied error. -/
def failingScanStore : String → Except JsonVal ScanCommandOutput :=
  fun _ => Except.error (JsonVal.obj [("name", JsonVal.str "AccessDenied")])

/-- C1: when the store scan succeeds, the Movie Lookup handler performs a
single unconditional scan of the Movies table and returns status 200 with
body serializing an object whose data field holds every record the scan
returned, in the order the scan returned them. -/
theorem movie_lookup_scan_success (env : String → Option String)
    (store : String → Except JsonVal ScanCommandOutput)
    (event context : JsonVal) (out : ScanCommandOutput)
    (h : store "Movies" = Except.ok out) :
    GetMovieById.handler env store event context =
      ({ statusCode := 200
         headers := jsonHeaders
         body := (JsonVal.obj [("data", JsonVal.arr out.Items)]).render },
       ["Movies"]) := by
  unfold GetMovieById.handler
  rw [show movieScanCommand.TableName = "Movies" from rfl, h]

/-- Witness for C1 at a concrete store holding one movie record. -/
theorem movie_lookup_scan_success_witness :
    sampleScanStore "Movies" = Except.ok { Items := sampleItems } ∧
    GetMovieById.handler (fun _ => none) sampleScanStore JsonVal.null JsonVal.null =
      ({ statusCode := 200
         headers := jsonHeaders
         body := (JsonVal.obj [("data", JsonVal.arr sampleItems)]).render },
       ["Movies"]) :=
  ⟨rfl, movie_lookup_scan_success (fun _ => none) sampleScanStore JsonVal.null
    JsonVal.null { Items := sampleItems } rfl⟩

/-- C2: when the store access throws, the Movie Lookup handler returns
status 500 with body echoing the error object, and the trace shows a
single store access: no internal retry. -/
theorem movie_lookup_store_error (env : String → Option String)
    (store : String → Except JsonVal ScanCommandOutput)
    (event context : JsonVal) (e : JsonVal)
    (h : store "Movies" = Except.error e) :
    GetMovieById.handler env store event context =
      ({ statusCode := 500
         headers := jsonHeaders
         body := (JsonVal.obj [("error", e)]).render },
       ["Movies"]) := by
  unfold GetMovieById.handler
  rw [show movieScanCommand.TableName = "Movies" from rfl, h]

/-- Witness for C2 at a concrete failing store. -/
theorem movie_lookup_store_error_witness :
    failingScanStore "Movies" =
      Except.error (JsonVal.obj [("name", JsonVal.str "AccessDenied")]) ∧
    GetMovieById.handler (fun _ => none) failingScanStore JsonVal.null JsonVal.null =
      ({ statusCode := 500
         headers := jsonHeaders
         body := (JsonVal.obj
           [("error", JsonVal.obj [("name", JsonVal.str "AccessDenied")])]).render },
       ["Movies"]) :=
  ⟨rfl, movie_lookup_store_error (fun _ => none) failingScanStore JsonVal.null
    JsonVal.null (JsonVal.obj [("name", JsonVal.str "AccessDenied")]) rfl⟩

/-- C3: when the scan of the Movies collection returns no records, the
Movie Lookup handler returns status 200 and the body is exactly the
serialization of an object with an empty data array: not an error. -/
theorem movie_lookup_empty_collection (env : String → Option String)
    (store : String → Except JsonVal ScanCommandOutput)
    (event context : JsonVal)
    (h : store "Movies" = Except.ok { Items := [] }) :
    GetMovieById.handler env store event context =
      ({ statusCode := 200
         headers := jsonHeaders
         body := "\x7b\"data\":[]\x7d" },
       ["Movies"]) := by
  unfold GetMovieById.handler
  rw [show movieScanCommand.TableName = "Movies" from rfl, h]
  rfl

/-- Witness for C3 at a concrete empty store. -/
theorem movie_lookup_empty_collection_witness :
    emptyScanStore "Movies" = Except.ok { Items := [] } ∧
    GetMovieById.handler (fun _ => none) emptyScanStore JsonVal.null JsonVal.null =
      ({ statusCode := 200
         headers := jsonHeaders
         body := "\x7b\"data\":[]\x7d" },
       ["Movies"]) :=
  ⟨rfl, movie_lookup_empty_collection (fun _ => none) emptyScanStore JsonVal.null
    JsonVal.null rfl⟩

/-- C8: the Movie Lookup handler ignores the invocation event and context:
for identical store behavior, any two invocations issue the same scan and
return identical responses. -/
theorem movie_lookup_input_independent (env : String → Option String)
    (store : String → Except JsonVal ScanCommandOutput)
    (event1 context1 event2 context2 : JsonVal) :
    GetMovieById.handler env store event1 context1 =
      GetMovieById.handler env store event2 context2 := rfl

/-- C9: the Movie Lookup handler is total at its boundary: every
invocation yields a structured response whose status code is 200 or 500,
carrying the JSON content-type header and a JSON-serialized body; every
store error is caught and converted, none propagates. -/
theorem movie_lookup_total (env : String → Option String)
    (store : String → Except JsonVal ScanCommandOutput)
    (event context : JsonVal) :
    ((GetMovieById.handler env store event context).1.statusCode = 200 ∨
      (GetMovieById.handler env store event context).1.statusCode = 500) ∧
    (GetMovieById.handler env store event context).1.headers = jsonHeaders ∧
    ∃ j : JsonVal,
      (GetMovieById.handler env store event context).1.body = JsonVal.render j := by
  unfold GetMovieById.handler
  cases h : store movieScanCommand.TableName with
  | ok out => exact ⟨Or.inl rfl, rfl, ⟨_, rfl⟩⟩
  | error e => exact ⟨Or.inr rfl, rfl, ⟨_, rfl⟩⟩

/-- C10: the Movie Lookup handler always scans the hardcoded table name
and never reads the environment: its response is invariant under any
change of environment, its trace is always the one hardcoded table, that
table is the literal Movies, and the TABLE_NAME variable the stack
supplies (which the handler ignores) happens to name the same table. -/
theorem movie_lookup_env_independent (env1 env2 : String → Option String)
    (store : String → Except JsonVal ScanCommandOutput)
    (event context : JsonVal) :
    GetMovieById.handler env1 store event context =
      GetMovieById.handler env2 store event context ∧
    (GetMovieById.handler env1 store event context).2 =
      [movieScanCommand.TableName] ∧
    movieScanCommand.TableName = "Movies" ∧
    stackGetMovieByIdEnv.lookup "TABLE_NAME" = some moviesTableName := by
  refine ⟨rfl, ?_, rfl, rfl⟩
  unfold GetMovieById.handler
  cases store movieScanCommand.TableName <;> rfl

/-- A sample cast record, for witnesses. -/
def sampleCastRow : Row :=
  [("movieId", JsonVal.num 1), ("actorName", JsonVal.str "X"),
   ("roleName", JsonVal.str "Hero")]

/-- A sample parent movie record, for witnesses. -/
def sampleMovie : Row := [("id", JsonVal.num 1), ("title", JsonVal.str "A")]

/-- A cast store with no cast rows and no movies. -/
def emptyCastStore : CastStore :=
  { queryCast := fun _ _ _ => Except.ok []
    getMovie := fun _ => Except.ok none }

/-- A cast store holding one cast row whose parent movie is absent. -/
def orphanCastStore : CastStore :=
  { queryCast := fun _ _ _ => Except.ok [sampleCastRow]
    getMovie := fun _ => Except.ok none }

/-- A cast store holding one cast row and its parent movie. -/
def fullCastStore : CastStore :=
  { queryCast := fun _ _ _ => Except.ok [sampleCastRow]
    getMovie := fun _ => Except.ok (some sampleMovie) }

/-- An event whose movieId does not parse as an integer. -/
def badIdEvent : CastEvent :=
  { movieId := some "abc", actorName := none, roleName := none,
    includeMovieMetadata := false }

/-- An event naming a movie with no cast rows, no enrichment. -/
def absentMovieEvent : CastEvent :=
  { movieId := some "999", actorName := none, roleName := none,
    includeMovieMetadata := false }

/-- An event naming movie 1 with enrichment requested. -/
def enrichEvent : CastEvent :=
  { movieId := some "1", actorName := none, roleName := none,
    includeMovieMetadata := true }

/-- C4: when the movieId parameter is missing or does not parse as an
integer, the Cast Lookup handler returns the 400 validation response and
its store-call trace is empty: no store access at all. -/
theorem cast_lookup_invalid_movieId (store : CastStore) (ev : CastEvent)
    (h : ev.movieId = none ∨ ∃ raw, ev.movieId = some raw ∧ parseIntParam raw = none) :
    getMovieCastMembers store ev = (invalidMovieIdResponse, []) := by
  unfold getMovieCastMembers
  rcases h with h | ⟨raw, h1, h2⟩
  · rw [h]
  · simp only [h1, h2]

/-- Witness for C4 at the concrete non-numeric movieId. -/
theorem cast_lookup_invalid_movieId_witness :
    (badIdEvent.movieId = none ∨
      ∃ raw, badIdEvent.movieId = some raw ∧ parseIntParam raw = none) ∧
    getMovieCastMembers emptyCastStore badIdEvent = (invalidMovieIdResponse, []) :=
  ⟨Or.inr ⟨"abc", rfl, rfl⟩,
    cast_lookup_invalid_movieId emptyCastStore badIdEvent
      (Or.inr ⟨"abc", rfl, rfl⟩)⟩

/-- C5: for a valid numeric movieId whose cast query succeeds with zero
rows, the Cast Lookup handler returns status 200 with an empty result
list (never 404 or 500), after the single cast query. -/
theorem cast_lookup_no_rows (store : CastStore) (ev : CastEvent)
    (raw : String) (movieId : Int)
    (h1 : ev.movieId = some raw) (h2 : parseIntParam raw = some movieId)
    (h3 : store.queryCast movieId ev.actorName ev.roleName = Except.ok []) :
    getMovieCastMembers store ev =
      ({ statusCode := 200
         headers := jsonHeaders
         body := "\x7b\"data\":[]\x7d" },
       [CastStoreCall.castQuery movieId ev.actorName ev.roleName]) := by
  unfold getMovieCastMembers
  simp only [h1, h2, h3, List.isEmpty_nil, if_true]
  rfl

/-- Witness for C5 at a concrete empty store and movieId 999. -/
theorem cast_lookup_no_rows_witness :
    absentMovieEvent.movieId = some "999" ∧
    parseIntParam "999" = some 999 ∧
    emptyCastStore.queryCast 999 none none = Except.ok [] ∧
    getMovieCastMembers emptyCastStore absentMovieEvent =
      ({ statusCode := 200
         headers := jsonHeaders
         body := "\x7b\"data\":[]\x7d" },
       [CastStoreCall.castQuery 999 none none]) :=
  ⟨rfl, rfl, rfl,
    cast_lookup_no_rows emptyCastStore absentMovieEvent "999" 999 rfl rfl rfl⟩

/-- C6: with enrichment requested, a valid movieId, matching cast rows,
but no Movie record with that id, the Cast Lookup handler returns the
un-enriched cast rows with status 200: the missing parent movie never
escalates to an error. -/
theorem cast_lookup_missing_parent (store : CastStore) (ev : CastEvent)
    (raw : String) (movieId : Int) (rows : List Row)
    (hflag : ev.includeMovieMetadata = true)
    (h1 : ev.movieId = some raw) (h2 : parseIntParam raw = some movieId)
    (h3 : store.queryCast movieId ev.actorName ev.roleName = Except.ok rows)
    (hne : rows ≠ [])
    (h4 : store.getMovie movieId = Except.ok none) :
    getMovieCastMembers store ev =
      ({ statusCode := 200
         headers := jsonHeaders
         body := okDataBody rows },
       [CastStoreCall.castQuery movieId ev.actorName ev.roleName,
        CastStoreCall.movieGet movieId]) := by
  unfold getMovieCastMembers
  simp only [h1, h2, h3]
  cases rows with
  | nil => exact absurd rfl hne
  | cons a tl => simp [hflag, h4]

/-- Witness for C6 at a concrete store with an orphan cast row. -/
theorem cast_lookup_missing_parent_witness :
    enrichEvent.includeMovieMetadata = true ∧
    enrichEvent.movieId = some "1" ∧
    parseIntParam "1" = some 1 ∧
    orphanCastStore.queryCast 1 none none = Except.ok [sampleCastRow] ∧
    [sampleCastRow] ≠ ([] : List Row) ∧
    orphanCastStore.getMovie 1 = Except.ok none ∧
    getMovieCastMembers orphanCastStore enrichEvent =
      ({ statusCode := 200
         headers := jsonHeaders
         body := okDataBody [sampleCastRow] },
       [CastStoreCall.castQuery 1 none none, CastStoreCall.movieGet 1]) :=
  ⟨rfl, rfl, rfl, rfl, by simp, rfl,
    cast_lookup_missing_parent orphanCastStore enrichEvent "1" 1 [sampleCastRow]
      rfl rfl rfl rfl (by simp) rfl⟩

/-- C7: with enrichment requested and the parent Movie record present,
the movie's attributes are merged into every returned cast row under the
same merge policy, every returned row carries the same movie metadata,
and repeated invocations on the same store state return identically. -/
theorem cast_lookup_enrichment (store : CastStore) (ev : CastEvent)
    (raw : String) (movieId : Int) (rows : List Row) (movie : Row)
    (hflag : ev.includeMovieMetadata = true)
    (h1 : ev.movieId = some raw) (h2 : parseIntParam raw = some movieId)
    (h3 : store.queryCast movieId ev.actorName ev.roleName = Except.ok rows)
    (hne : rows ≠ [])
    (h4 : store.getMovie movieId = Except.ok (some movie)) :
    getMovieCastMembers store ev =
      ({ statusCode := 200
         headers := jsonHeaders
         body := okDataBody (rows.map (enrichRow movie)) },
       [CastStoreCall.castQuery movieId ev.actorName ev.roleName,
        CastStoreCall.movieGet movieId]) ∧
    (∀ r ∈ rows.map (enrichRow movie), ("movie", JsonVal.obj movie) ∈ r) ∧
    getMovieCastMembers store ev = getMovieCastMembers store ev := by
  refine ⟨?_, ?_, rfl⟩
  · unfold getMovieCastMembers
    simp only [h1, h2, h3]
    cases rows with
    | nil => exact absurd rfl hne
    | cons a tl => simp [hflag, h4]
  · intro r hr
    rw [List.mem_map] at hr
    obtain ⟨r0, _, hr0⟩ := hr
    subst hr0
    exact List.mem_append_right r0 (List.mem_singleton_self _)

/-- Witness for C7 at a concrete store with a cast row and its movie. -/
theorem cast_lookup_enrichment_witness :
    enrichEvent.includeMovieMetadata = true ∧
    enrichEvent.movieId = some "1" ∧
    parseIntParam "1" = some 1 ∧
    fullCastStore.queryCast 1 none none = Except.ok [sampleCastRow] ∧
    [sampleCastRow] ≠ ([] : List Row) ∧
    fullCastStore.getMovie 1 = Except.ok (some sampleMovie) ∧
    getMovieCastMembers fullCastStore enrichEvent =
      ({ statusCode := 200
         headers := jsonHeaders
         body := okDataBody ([sampleCastRow].map (enrichRow sampleMovie)) },
       [CastStoreCall.castQuery 1 none none, CastStoreCall.movieGet 1]) :=
  ⟨rfl, rfl, rfl, rfl, by simp, rfl,
    (cast_lookup_enrichment fullCastStore enrichEvent "1" 1 [sampleCastRow]
      sampleMovie rfl rfl rfl rfl (by simp) rfl).1⟩

end SimpleApp
